import Mathlib

/-!
Verification development for the PaddleX repository fragment consisting of
`ultra_infer/ts/forecasting/ppts/__init__.py` (time-series forecasting
pre/postprocessing pipeline), `paddlex/cv/models/utils/det_metrics/metrics.py`
(detection metric accumulators) and
`paddlex/repo_apis/PaddleOCR_api/formula_rec/register.py` (static model
registration).

Python values are embedded shallowly: numeric array entries become `Rat`
(no claim depends on floating-point rounding), numpy arrays become a shape
plus a flat data list, pandas indices become lists of integers tagged with
their kind (datetime vs range), and fallible Python code becomes
`Except Err`.  External collaborators (numpy, pandas, the inference
runtime, pycocotools) are modelled by small executable functions that are
faithful in the dimensions the claims mention (lengths, error conditions);
repository code that is referenced but not part of the fragment is
modelled from the spec and marked as such in its doc comment.
-/

namespace PX

/-- Numeric value of an array cell.  The source uses floating point; the
properties verified here never depend on rounding, so exact rationals are
used. -/
abbrev Val := Rat

/-- Python exceptions raised by the embedded code, by class, with the
message (or attribute / key name) where a claim mentions it. -/
inductive Err where
  | exception (msg : String)
  | valueError (msg : String)
  | keyError (key : String)
  | attributeError (name : String)
  | typeError (msg : String)
  | indexError (msg : String)
deriving DecidableEq

/-- Model of a pandas index: a `DatetimeIndex` (entry values are epoch
seconds, with an optional frequency step in seconds) or a `RangeIndex`
(plain integers).  Only `DatetimeIndex` entries answer `.timestamp()`. -/
inductive PdIndex where
  | datetime (vals : List Int) (freq : Option Int)
  | range (vals : List Int)
deriving DecidableEq, Inhabited

/-- The entries of an index. -/
def PdIndex.vals : PdIndex → List Int
  | .datetime vs _ => vs
  | .range vs => vs

/-- Number of entries of an index. -/
def PdIndex.length (i : PdIndex) : Nat := i.vals.length

/-- Model of `[int(i.timestamp()) for i in index]`: datetime entries expose
`.timestamp()`; entries of a `RangeIndex` are plain ints and raise
`AttributeError`. -/
def PdIndex.timestamps : PdIndex → Except Err (List Int)
  | .datetime vs _ => .ok vs
  | .range _ => .error (.attributeError (r"timestamp"))

/-- Model of a pandas DataFrame (also standing in for the frames stored in
a TSDataset): column names, row index, and row-major cell values. -/
structure Series where
  cols : List String
  index : PdIndex
  values : List (List Val)
deriving DecidableEq, Inhabited

/-- Model of a numpy ndarray: its shape and flat row-major data. -/
structure NDArray where
  shape : List Nat
  data : List Val
deriving DecidableEq, Inhabited

/-- `a.shape[0]`: raises `IndexError` on a 0-dimensional array. -/
def shape0 (a : NDArray) : Except Err Nat :=
  match a.shape.head? with
  | some n => .ok n
  | none => .error (.indexError (r"tuple index out of range"))

/-- Split a list into `n` chunks of `m` elements each (row-major). -/
def listChunks : Nat → Nat → List Val → List (List Val)
  | 0, _, _ => []
  | n + 1, m, l => l.take m :: listChunks n m (l.drop m)

/-- Model of `np.reshape(pred, newshape=[n, -1])`, returning the rows of
the reshaped 2-D array.  numpy cannot infer the `-1` dimension when `n` is
zero, and requires the total size to be divisible by `n`. -/
def npReshapeRows (a : NDArray) (n : Nat) : Except Err (List (List Val)) :=
  if n = 0 then .error (.valueError (r"cannot reshape array"))
  else if a.data.length % n ≠ 0 then .error (.valueError (r"cannot reshape array"))
  else .ok (listChunks n (a.data.length / n) a.data)

/-- Model of a pandas DataFrame as produced by the postprocessor. -/
structure DataFrame where
  index : PdIndex
  cols : List String
  rows : List (List Val)
deriving DecidableEq

/-- Model of the `pd.DataFrame(data, index=..., columns=...)` constructor:
it raises `ValueError` when the number of rows differs from the index
length, or when some row width differs from the number of columns. -/
def pdDataFrame (rows : List (List Val)) (index : PdIndex) (cols : List String) :
    Except Err DataFrame :=
  if rows.length ≠ index.length then
    .error (.valueError (r"Shape of passed values does not match indices"))
  else if ¬ (rows.all (fun row => row.length == cols.length)) then
    .error (.valueError (r"columns passed do not match data"))
  else .ok ⟨index, cols, rows⟩

/-- Model of `pd.date_range(start, periods=periods, freq=...)` where the
frequency denotes a step of `step` seconds: `periods` datetime entries
starting at `start`. -/
def pdDateRange (start step : Int) (periods : Nat) : PdIndex :=
  .datetime ((List.range periods).map (fun i => start + step * (i : Int))) (some step)

/-- Model of `pd.RangeIndex(start, stop, step)`: the integers from `start`
(inclusive) to `stop` (exclusive) in steps of `step`; a zero step raises
`ValueError`. -/
def pdRangeIndex (start stop step : Int) : Except Err PdIndex :=
  if step = 0 then .error (.valueError (r"Step must not be zero"))
  else
    let len : Nat :=
      if 0 < step then (((stop - start) + step - 1) / step).toNat
      else (((start - stop) + (-step) - 1) / (-step)).toNat
    .ok (.range ((List.range len).map (fun i => start + step * (i : Int))))

/-- Model of `pd.infer_freq(index)`: raises `ValueError` on fewer than 3
entries; otherwise returns the common consecutive difference, if there is
one. -/
def pdInferFreq (vs : List Int) : Except Err (Option Int) :=
  if vs.length < 3 then
    .error (.valueError (r"Need at least 3 dates to infer frequency"))
  else
    match (vs.zip vs.tail).map (fun p => p.2 - p.1) with
    | [] => .ok none
    | d :: rest => if rest.all (fun x => x == d) then .ok (some d) else .ok none

/-- The `info_params["freq"]` config value: either a pandas frequency
string (carried together with the step length in seconds that the alias
denotes) or a plain int. -/
inductive PdFreq where
  | str (name : String) (step : Int)
  | int (step : Int)
deriving DecidableEq

/-- The `info_params` sub-config used by the forecasting postprocessor.
`none` for `targetCols` / `featureCols` models the key being absent. -/
structure InfoParams where
  targetCols : Option (List String)
  featureCols : Option (List String)
  freq : PdFreq
  timeCol : String
deriving DecidableEq

/-- The four optional components of a TSDataset-style `ori_ts` record. -/
structure TSDatasetComponents where
  pastTarget : Option Series
  observedCovNumeric : Option Series
  knownCovNumeric : Option Series
  staticCovNumeric : Option Series
deriving DecidableEq

/-- What the `ori_ts` field of the shared record may hold: the raw input
frame (as stored by `batch_predict` before preprocessing) or a
TSDataset-style mapping. -/
inductive OriVal where
  | raw (s : Series)
  | tsdataset (c : TSDatasetComponents)
deriving DecidableEq

/-- A single column of a frame viewed as a pandas Series (same index). -/
def Series.column (s : Series) (c : String) : Series :=
  let j := s.cols.indexOf c
  { cols := [c], index := s.index, values := s.values.map (fun row => [row.getD j 0]) }

/-- Model of `ori_ts.get(key, None)`: on a dict-like TSDataset record it
looks up the component; on a raw DataFrame, `DataFrame.get` returns the
column of that name when present and `None` otherwise. -/
def oriGet (v : OriVal) (k : String) : Option Series :=
  match v with
  | .raw s => if s.cols.contains k then some (s.column k) else none
  | .tsdataset c =>
    if k == (r"past_target") then c.pastTarget
    else if k == (r"observed_cov_numeric") then c.observedCovNumeric
    else if k == (r"known_cov_numeric") then c.knownCovNumeric
    else if k == (r"static_cov_numeric") then c.staticCovNumeric
    else none

/-- The reference-series selection at the top of
`_PyOnlyForecastingPostprocessor.run` (the `if`/`elif` chain over
`past_target`, `observed_cov_numeric`, `known_cov_numeric`,
`static_cov_numeric`); `none` corresponds to falling through to
`raise ValueError("No value in ori_ts")`. -/
def selectRefTS (ori : OriVal) : Option Series :=
  if (oriGet ori (r"past_target")).isSome then oriGet ori (r"past_target")
  else if (oriGet ori (r"observed_cov_numeric")).isSome then oriGet ori (r"observed_cov_numeric")
  else if (oriGet ori (r"known_cov_numeric")).isSome then oriGet ori (r"known_cov_numeric")
  else if (oriGet ori (r"static_cov_numeric")).isSome then oriGet ori (r"static_cov_numeric")
  else none

/-- `column_name = info_params["target_cols"] if "target_cols" in
info_params else info_params["feature_cols"]`. -/
def selectColumnNames (p : InfoParams) : Except Err (List String) :=
  match p.targetCols with
  | some cs => .ok cs
  | none =>
    match p.featureCols with
    | some cs => .ok cs
    | none => .error (.keyError (r"feature_cols"))

/-- The future-index construction of `_PyOnlyForecastingPostprocessor.run`
(lines 148-166): for a string frequency, a `pd.date_range` starting one
index-frequency step after the last past timestamp (inferring the index
frequency when unset); for an int frequency, a `pd.RangeIndex` from
`max(ts.index) + 1` of extent `pred.shape[0]` with step equal to that
int. -/
def buildFutureIndex (p : InfoParams) (ts : Series) (pred : NDArray) :
    Except Err PdIndex :=
  match p.freq with
  | .str _ stepF =>
    (match ts.index with
     | .range _ => .error (.attributeError (r"freq"))
     | .datetime vals f0 => do
       let fq ← (match f0 with
         | some s => Except.ok (some s)
         | none => pdInferFreq vals)
       (match vals.getLast? with
        | none => Except.error (.indexError (r"index -1 is out of bounds"))
        | some last =>
          (match fq with
           | none => Except.error (.typeError (r"unsupported operand type for addition"))
           | some s => do
             let n ← shape0 pred
             Except.ok (pdDateRange (last + s) stepF n))))
  | .int stepI =>
    (match ts.index with
     | .datetime _ _ => .error (.typeError (r"RangeIndex start must be an integer"))
     | .range vals =>
       (match vals.max? with
        | none => Except.error (.valueError (r"max of empty index"))
        | some m => do
          let n ← shape0 pred
          pdRangeIndex (m + 1) (m + 1 + (n : Int)) stepI))

/-- Modelled from the spec: the `Denormalize` processor
(`ultra_infer.py_only.ts.processors`, not part of this fragment) inverts
the `Normalize` scaling on the values of the `pred` frame of the shared
record; it is a per-cell value transform (here an arbitrary function
`denorm`) that leaves the frame shape, columns and index unchanged.  The
postprocessor chain holds exactly this processor when `config["scale"]` is
truthy and is empty otherwise. -/
def applyPostChain (scale : Bool) (denorm : Val → Val) (df : DataFrame) : DataFrame :=
  if scale then { df with rows := df.rows.map (List.map denorm) } else df

/-- `forecast[col_name].tolist()`: the values of the named column. -/
def dfColumn (df : DataFrame) (c : String) : List Val :=
  let j := df.cols.indexOf c
  df.rows.map (fun row => row.getD j 0)

/-- The result dataclass `_PyOnlyForecastingResult`. -/
structure ForecastingResult where
  dates : List Int
  colNames : List String
  data : List (List Val)
deriving DecidableEq, Inhabited

/-- Input record handed to `_PyOnlyForecastingPostprocessor.run`. -/
structure PostInput where
  oriTs : OriVal
  pred : NDArray
deriving DecidableEq

/-- Body of `_PyOnlyForecastingPostprocessor.run` after the reference
series `ts` has been selected (lines 143-180): column names, future index,
reshape of `pred`, `pd.DataFrame` construction, the (possibly empty)
denormalize chain, column extraction and timestamp extraction. -/
def postprocessorRunTS (p : InfoParams) (scale : Bool) (denorm : Val → Val)
    (ts : Series) (pred : NDArray) : Except Err ForecastingResult := do
  let columnName ← selectColumnNames p
  let futureIdx ← buildFutureIndex p ts pred
  let n ← shape0 pred
  let rows ← npReshapeRows pred n
  let futureTarget ← pdDataFrame rows futureIdx columnName
  let forecast := applyPostChain scale denorm futureTarget
  let colNames := forecast.cols
  let data := colNames.map (fun c => dfColumn forecast c)
  let dates ← forecast.index.timestamps
  Except.ok { dates := dates, colNames := colNames, data := data }

/-- `_PyOnlyForecastingPostprocessor.run` (lines 129-180): select the
reference series from `ori_ts` by priority, raising
`ValueError("No value in ori_ts")` when all four components are absent,
then reconstruct the forecast frame and result. -/
def postprocessorRun (p : InfoParams) (scale : Bool) (denorm : Val → Val)
    (data : PostInput) : Except Err ForecastingResult :=
  match selectRefTS data.oriTs with
  | none => .error (.valueError (r"No value in ori_ts"))
  | some ts => postprocessorRunTS p scale denorm ts data.pred

/-! ### Helper lemmas about the embedded pandas/numpy primitives -/

theorem listChunks_length (n m : Nat) (l : List Val) : (listChunks n m l).length = n := by
  induction n generalizing l with
  | zero => simp [listChunks]
  | succ k ih => simp [listChunks, ih]

theorem npReshapeRows_ok {a : NDArray} {n : Nat} {rows : List (List Val)}
    (h : npReshapeRows a n = .ok rows) : rows.length = n := by
  unfold npReshapeRows at h
  split at h
  · cases h
  · split at h
    · cases h
    · cases h
      exact listChunks_length ..

theorem pdDataFrame_ok {rows : List (List Val)} {idx : PdIndex} {cols : List String}
    {df : DataFrame} (h : pdDataFrame rows idx cols = .ok df) :
    df = ⟨idx, cols, rows⟩ ∧ rows.length = idx.length := by
  unfold pdDataFrame at h
  split at h
  · cases h
  · split at h
    · cases h
    · cases h
      exact ⟨rfl, by omega⟩

theorem timestamps_ok {i : PdIndex} {ds : List Int} (h : i.timestamps = .ok ds) :
    ds.length = i.length := by
  cases i with
  | datetime vs f => cases h; rfl
  | range vs => cases h

theorem applyPostChain_index (scale : Bool) (denorm : Val → Val) (df : DataFrame) :
    (applyPostChain scale denorm df).index = df.index := by
  cases scale <;> simp [applyPostChain]

theorem applyPostChain_cols (scale : Bool) (denorm : Val → Val) (df : DataFrame) :
    (applyPostChain scale denorm df).cols = df.cols := by
  cases scale <;> simp [applyPostChain]

theorem applyPostChain_rows_length (scale : Bool) (denorm : Val → Val) (df : DataFrame) :
    (applyPostChain scale denorm df).rows.length = df.rows.length := by
  cases scale <;> simp [applyPostChain]

theorem dfColumn_length (df : DataFrame) (c : String) :
    (dfColumn df c).length = df.rows.length := by
  simp [dfColumn]

/-- C1: for every `_PyOnlyForecastingResult` returned by
`_PyOnlyForecastingPostprocessor.run` (for any `info_params`, any scale
flag and denormalizer, hence in particular also when `info_params["freq"]`
is an int and the future index is the `RangeIndex` built by
`buildFutureIndex` with step equal to that int), the array lengths match:
`len(result.data) = len(result.col_names)`, every inner list of
`result.data` has the same length as `result.dates`, and that length is
the number of prediction rows `pred.shape[0]`. -/
theorem claim_c1_result_array_lengths (p : InfoParams) (scale : Bool)
    (denorm : Val → Val) (input : PostInput) (r : ForecastingResult)
    (h : postprocessorRun p scale denorm input = .ok r) :
    r.data.length = r.colNames.length ∧
      (r.data.all (fun col => col.length == r.dates.length)) = true ∧
      shape0 input.pred = .ok r.dates.length := by
  unfold postprocessorRun at h
  cases hsel : selectRefTS input.oriTs with
  | none => rw [hsel] at h; cases h
  | some ts =>
    rw [hsel] at h
    unfold postprocessorRunTS at h
    simp only [Bind.bind] at h
    cases h1 : selectColumnNames p with
    | error e => rw [h1] at h; cases h
    | ok columnName =>
    rw [h1] at h
    simp only [Except.bind] at h
    cases h2 : buildFutureIndex p ts input.pred with
    | error e => rw [h2] at h; cases h
    | ok futureIdx =>
    rw [h2] at h
    simp only [Except.bind] at h
    cases h3 : shape0 input.pred with
    | error e => rw [h3] at h; cases h
    | ok n =>
    rw [h3] at h
    simp only [Except.bind] at h
    cases h4 : npReshapeRows input.pred n with
    | error e => rw [h4] at h; cases h
    | ok rows =>
    rw [h4] at h
    simp only [Except.bind] at h
    cases h5 : pdDataFrame rows futureIdx columnName with
    | error e => rw [h5] at h; cases h
    | ok df =>
    rw [h5] at h
    simp only [Except.bind] at h
    obtain ⟨hdf, hlen⟩ := pdDataFrame_ok h5
    cases h6 : (applyPostChain scale denorm df).index.timestamps with
    | error e => rw [h6] at h; cases h
    | ok ds =>
    rw [h6] at h
    cases h
    have hds : ds.length = futureIdx.length := by
      have := timestamps_ok h6
      rwa [applyPostChain_index, hdf] at this
    have hrows : rows.length = n := npReshapeRows_ok h4
    refine ⟨by simp, ?_, ?_⟩
    · rw [List.all_eq_true]
      intro col hcol
      simp only [List.mem_map] at hcol
      obtain ⟨c, _, hc⟩ := hcol
      rw [beq_iff_eq, ← hc, dfColumn_length, applyPostChain_rows_length, hdf]
      simp only []
      omega
    · have hdsn : ds.length = n := by omega
      simp [hdsn, h3]

/-! ### Witness data for the postprocessor claims -/

/-- A concrete `info_params` with a string frequency (daily). -/
def c1InfoParams : InfoParams :=
  { targetCols := some [(r"t")], featureCols := none,
    freq := .str (r"D") 86400, timeCol := (r"date") }

/-- A concrete past-target frame: two daily rows. -/
def c1Ts : Series :=
  { cols := [(r"t")], index := .datetime [0, 86400] (some 86400), values := [[1], [2]] }

/-- A concrete postprocessor input with two prediction rows. -/
def c1Input : PostInput :=
  { oriTs := .tsdataset ⟨some c1Ts, none, none, none⟩,
    pred := { shape := [2], data := [5, 6] } }

/-- The result the postprocessor returns on `c1Input`. -/
def c1Result : ForecastingResult :=
  { dates := [172800, 259200], colNames := [(r"t")], data := [[5, 6]] }

/-- Witness for C1: the postprocessor run succeeds on a concrete input and
the length invariant follows from `claim_c1_result_array_lengths` there. -/
theorem claim_c1_witness :
    postprocessorRun c1InfoParams false id c1Input = .ok c1Result ∧
      (c1Result.data.length = c1Result.colNames.length ∧
        (c1Result.data.all (fun col => col.length == c1Result.dates.length)) = true ∧
        shape0 c1Input.pred = .ok c1Result.dates.length) :=
  ⟨by rfl, claim_c1_result_array_lengths c1InfoParams false id c1Input c1Result (by rfl)⟩

/-! ### C10: the `No value in ori_ts` error and the selection priority -/

theorem bindE_ne_error {α β : Type} {e : Err} {x : Except Err α} {f : α → Except Err β}
    (hx : x ≠ .error e) (hf : ∀ a, f a ≠ .error e) : (x >>= f) ≠ .error e := by
  cases x with
  | error e2 =>
    simp only [Bind.bind, Except.bind]
    intro hc
    injection hc with h2
    exact hx (by rw [h2])
  | ok a => simp only [Bind.bind, Except.bind]; exact hf a

theorem selectColumnNames_ne_noValue (p : InfoParams) :
    selectColumnNames p ≠ .error (.valueError (r"No value in ori_ts")) := by
  cases htc : p.targetCols with
  | some cs => simp [selectColumnNames, htc]
  | none => cases hfc : p.featureCols <;> simp [selectColumnNames, htc, hfc]

theorem shape0_ne_noValue (a : NDArray) :
    shape0 a ≠ .error (.valueError (r"No value in ori_ts")) := by
  cases h : a.shape.head? <;> simp [shape0, h]

theorem pdInferFreq_ne_noValue (vs : List Int) :
    pdInferFreq vs ≠ .error (.valueError (r"No value in ori_ts")) := by
  unfold pdInferFreq
  split
  · simp
  · split
    · simp
    · split <;> simp

theorem pdRangeIndex_ne_noValue (a b c : Int) :
    pdRangeIndex a b c ≠ .error (.valueError (r"No value in ori_ts")) := by
  unfold pdRangeIndex
  split <;> simp

theorem npReshapeRows_ne_noValue (a : NDArray) (n : Nat) :
    npReshapeRows a n ≠ .error (.valueError (r"No value in ori_ts")) := by
  unfold npReshapeRows
  split
  · simp
  · split <;> simp

theorem pdDataFrame_ne_noValue (rows : List (List Val)) (idx : PdIndex) (cols : List String) :
    pdDataFrame rows idx cols ≠ .error (.valueError (r"No value in ori_ts")) := by
  unfold pdDataFrame
  split
  · simp
  · split <;> simp

theorem timestamps_ne_noValue (i : PdIndex) :
    i.timestamps ≠ .error (.valueError (r"No value in ori_ts")) := by
  cases i <;> simp [PdIndex.timestamps]

theorem buildFutureIndex_ne_noValue (p : InfoParams) (ts : Series) (pred : NDArray) :
    buildFutureIndex p ts pred ≠ .error (.valueError (r"No value in ori_ts")) := by
  unfold buildFutureIndex
  cases hf : p.freq with
  | str name stepF =>
    cases hidx : ts.index with
    | range vs => simp
    | datetime vals f0 =>
      refine bindE_ne_error ?_ (fun fq => ?_)
      · cases f0 with
        | some s => simp
        | none => exact pdInferFreq_ne_noValue vals
      · cases vals.getLast? with
        | none => simp
        | some last =>
          cases fq with
          | none => simp
          | some s => exact bindE_ne_error (shape0_ne_noValue pred) (fun n => by simp)
  | int stepI =>
    cases hidx : ts.index with
    | datetime vals f0 => simp
    | range vals =>
      cases hm : vals.max? with
      | none => simp [hm]
      | some m =>
        simp only [hm]
        exact bindE_ne_error (shape0_ne_noValue pred)
          (fun n => pdRangeIndex_ne_noValue (m + 1) (m + 1 + (n : Int)) stepI)

theorem postprocessorRunTS_ne_noValue (p : InfoParams) (scale : Bool) (denorm : Val → Val)
    (ts : Series) (pred : NDArray) :
    postprocessorRunTS p scale denorm ts pred ≠ .error (.valueError (r"No value in ori_ts")) := by
  unfold postprocessorRunTS
  refine bindE_ne_error (selectColumnNames_ne_noValue p) (fun columnName => ?_)
  refine bindE_ne_error (buildFutureIndex_ne_noValue p ts pred) (fun futureIdx => ?_)
  refine bindE_ne_error (shape0_ne_noValue pred) (fun n => ?_)
  refine bindE_ne_error (npReshapeRows_ne_noValue pred n) (fun rows => ?_)
  refine bindE_ne_error (pdDataFrame_ne_noValue rows futureIdx columnName) (fun df => ?_)
  exact bindE_ne_error (timestamps_ne_noValue _) (fun ds => by simp)

theorem selectRefTS_eq_none_iff (o : OriVal) :
    selectRefTS o = none ↔
      (oriGet o (r"past_target") = none ∧ oriGet o (r"observed_cov_numeric") = none ∧
        oriGet o (r"known_cov_numeric") = none ∧ oriGet o (r"static_cov_numeric") = none) := by
  cases h1 : oriGet o (r"past_target") <;> cases h2 : oriGet o (r"observed_cov_numeric") <;>
    cases h3 : oriGet o (r"known_cov_numeric") <;> cases h4 : oriGet o (r"static_cov_numeric") <;>
      simp [selectRefTS, h1, h2, h3, h4]

theorem selectRefTS_orElse (o : OriVal) :
    selectRefTS o =
      ((oriGet o (r"past_target")).orElse fun _ =>
        ((oriGet o (r"observed_cov_numeric")).orElse fun _ =>
          ((oriGet o (r"known_cov_numeric")).orElse fun _ =>
            oriGet o (r"static_cov_numeric")))) := by
  cases h1 : oriGet o (r"past_target") <;> cases h2 : oriGet o (r"observed_cov_numeric") <;>
    cases h3 : oriGet o (r"known_cov_numeric") <;> cases h4 : oriGet o (r"static_cov_numeric") <;>
      simp [selectRefTS, Option.orElse, h1, h2, h3, h4]

/-- C10: `_PyOnlyForecastingPostprocessor.run` raises
`ValueError("No value in ori_ts")` if and only if none of the keys
`past_target`, `observed_cov_numeric`, `known_cov_numeric`,
`static_cov_numeric` maps to a non-None value in `data["ori_ts"]`;
otherwise the reference series is the first of those four keys, in that
priority order, holding a non-None value. -/
theorem claim_c10_no_value_priority (p : InfoParams) (scale : Bool)
    (denorm : Val → Val) (input : PostInput) :
    (postprocessorRun p scale denorm input = .error (.valueError (r"No value in ori_ts")) ↔
      (oriGet input.oriTs (r"past_target") = none ∧
        oriGet input.oriTs (r"observed_cov_numeric") = none ∧
        oriGet input.oriTs (r"known_cov_numeric") = none ∧
        oriGet input.oriTs (r"static_cov_numeric") = none)) ∧
    selectRefTS input.oriTs =
      ((oriGet input.oriTs (r"past_target")).orElse fun _ =>
        ((oriGet input.oriTs (r"observed_cov_numeric")).orElse fun _ =>
          ((oriGet input.oriTs (r"known_cov_numeric")).orElse fun _ =>
            oriGet input.oriTs (r"static_cov_numeric")))) := by
  refine ⟨⟨fun h => ?_, fun hall => ?_⟩, selectRefTS_orElse _⟩
  · rw [← selectRefTS_eq_none_iff]
    cases hsel : selectRefTS input.oriTs with
    | none => rfl
    | some ts =>
      unfold postprocessorRun at h
      rw [hsel] at h
      exact absurd h (postprocessorRunTS_ne_noValue p scale denorm ts input.pred)
  · unfold postprocessorRun
    rw [(selectRefTS_eq_none_iff _).mpr hall]

/-- A postprocessor input whose `ori_ts` has no non-None component. -/
def c10Input : PostInput :=
  { oriTs := .tsdataset ⟨none, none, none, none⟩, pred := { shape := [1], data := [0] } }

/-- Witness for C10: on an `ori_ts` with all four components absent, the
run raises exactly `ValueError("No value in ori_ts")`. -/
theorem claim_c10_witness :
    postprocessorRun c1InfoParams false id c10Input = .error (.valueError (r"No value in ori_ts")) :=
  (claim_c10_no_value_priority c1InfoParams false id c10Input).1.mpr
    ⟨rfl, rfl, rfl, rfl⟩

/-! ### The forecasting preprocessor: processor chain construction -/

/-- The forecasting model config (`load_config(config_file)`), restricted
to the keys the pre/postprocessors read.  `scale` and `timeFeat` model the
truthiness of `config.get("scale", None)` / `config.get("time_feat",
None)`; `size`, `holiday` and `inputData` are opaque payloads forwarded to
the processors. -/
structure FcConfig where
  size : Nat
  scale : Bool
  infoParams : InfoParams
  timeFeat : Bool
  holiday : Bool
  inputData : List String
deriving DecidableEq

/-- The named preprocessing stages appended by
`_PyOnlyForecastingPreprocessor._build_processors`, with the constructor
arguments the source passes. -/
inductive Processor where
  | cutOff (size : Nat)
  | normalize (scalerFile : String) (infoParams : InfoParams)
  | buildTSDataset (infoParams : InfoParams)
  | calcTimeFeatures (infoParams : InfoParams) (size : Nat) (holiday : Bool)
  | dataFrame2Arrays (inputData : List String)
deriving DecidableEq

/-- File-existence oracle modelling `os.path.exists`. -/
def FsExists := String → Bool

/-- `_PyOnlyForecastingPreprocessor._build_processors` (lines 97-118):
`CutOff`, then (iff `config["scale"]` is truthy, after checking the scaler
file exists, else raising) `Normalize`, then `BuildTSDataset`, then (iff
`config["time_feat"]` is truthy) `CalcTimeFeatures`, then
`DataFrame2Arrays`. -/
def buildPreProcessors (config : FcConfig) (scalerFile : String) (fs : FsExists) :
    Except Err (List Processor) := do
  let ps0 := [Processor.cutOff config.size]
  let ps1 ← (if config.scale then
      (if fs scalerFile then
        Except.ok (ps0 ++ [Processor.normalize scalerFile config.infoParams])
      else Except.error (.exception ((r"Cannot find scaler file: ") ++ scalerFile)))
    else Except.ok ps0)
  let ps2 := ps1 ++ [Processor.buildTSDataset config.infoParams]
  let ps3 := (if config.timeFeat then
      ps2 ++ [Processor.calcTimeFeatures config.infoParams config.size config.holiday]
    else ps2)
  Except.ok (ps3 ++ [Processor.dataFrame2Arrays config.inputData])

/-- What the `ts` field of the shared preprocessing record holds: the raw
input frame, or the list of arrays produced by `DataFrame2Arrays`. -/
inductive TsVal where
  | frame (s : Series)
  | arrays (xs : List NDArray)
deriving DecidableEq, Inhabited

/-- The shared mutable record threaded through the preprocessor chain
(`{"ori_ts": ..., "ts": ...}`). -/
structure TSRecord where
  oriTs : OriVal
  ts : TsVal
deriving DecidableEq

instance : Inhabited TSRecord := ⟨⟨.raw default, default⟩⟩

/-- Modelled from the spec: the data transformations of the five
preprocessing stages (`CutOff`, `Normalize`, `BuildTSDataset`,
`CalcTimeFeatures`, `DataFrame2Arrays` from
`ultra_infer.py_only.ts.processors`, which is not part of this fragment).
Per the spec each stage consumes and produces the shared record; their
numeric behaviour is quantified over through this structure. -/
structure StageSem where
  cutOff : Nat → TSRecord → TSRecord
  normalize : String → InfoParams → TSRecord → TSRecord
  buildTSDataset : InfoParams → TSRecord → TSRecord
  calcTimeFeatures : InfoParams → Nat → Bool → TSRecord → TSRecord
  dataFrame2Arrays : List String → TSRecord → TSRecord

/-- Dispatch of one named stage on the shared record. -/
def applyProcessor (sem : StageSem) (p : Processor) (d : TSRecord) : TSRecord :=
  match p with
  | .cutOff sz => sem.cutOff sz d
  | .normalize f ip => sem.normalize f ip d
  | .buildTSDataset ip => sem.buildTSDataset ip d
  | .calcTimeFeatures ip sz h => sem.calcTimeFeatures ip sz h d
  | .dataFrame2Arrays i => sem.dataFrame2Arrays i d

/-- Modelled from the spec: `PyOnlyProcessorChain.__call__`
(`ultra_infer.py_only`, not part of this fragment) applies its processors
to the shared record in list order, each stage consuming the record
produced by the previous one. -/
def processorChain (sem : StageSem) (ps : List Processor) (d : TSRecord) : TSRecord :=
  ps.foldl (fun acc p => applyProcessor sem p acc) d

/-- The `_PyOnlyForecastingPreprocessor` object after `__init__`. -/
structure Preprocessor where
  scalerFile : String
  processors : List Processor
deriving DecidableEq

/-- `_PyOnlyForecastingPreprocessor.__init__` (lines 88-92): builds the
processor chain, propagating the missing-scaler error. -/
def preprocessorInit (config : FcConfig) (scalerFile : String) (fs : FsExists) :
    Except Err Preprocessor := do
  let ps ← buildPreProcessors config scalerFile fs
  Except.ok { scalerFile := scalerFile, processors := ps }

/-- `_PyOnlyForecastingPreprocessor.run` (lines 94-95). -/
def preprocessorRunChain (sem : StageSem) (pre : Preprocessor) (d : TSRecord) : TSRecord :=
  processorChain sem pre.processors d

/-- The `_PyOnlyForecastingPostprocessor` object after `__init__`.
`scale` records whether the chain holds the `Denormalize` processor (cf.
`applyPostChain`, which gives that chain its semantics). -/
structure Postprocessor where
  scalerFile : String
  infoParams : InfoParams
  scale : Bool
deriving DecidableEq

/-- `_PyOnlyForecastingPostprocessor.__init__` / `_build_processors`
(lines 122-127 and 182-188): stores `info_params`; the chain holds
`Denormalize` iff `config["scale"]` is truthy, after checking that the
scaler file exists (raising otherwise). -/
def postprocessorInit (config : FcConfig) (scalerFile : String) (fs : FsExists) :
    Except Err Postprocessor :=
  if config.scale then
    (if fs scalerFile then
      Except.ok { scalerFile := scalerFile, infoParams := config.infoParams, scale := true }
    else Except.error (.exception ((r"Cannot find scaler file: ") ++ scalerFile)))
  else Except.ok { scalerFile := scalerFile, infoParams := config.infoParams, scale := false }

/-- `run` on the constructed postprocessor object. -/
def postprocessorObjRun (post : Postprocessor) (denorm : Val → Val) (data : PostInput) :
    Except Err ForecastingResult :=
  postprocessorRun post.infoParams post.scale denorm data

/-- C4: for every config, the preprocessor chain is exactly `CutOff`, then
`Normalize` iff `config["scale"]` is truthy, then `BuildTSDataset`, then
`CalcTimeFeatures` iff `config["time_feat"]` is truthy, then
`DataFrame2Arrays`, in that order; and `run` applies these stages in
exactly that order, each consuming the record produced by the previous
stage. -/
theorem claim_c4_preprocessor_chain_order (config : FcConfig) (scalerFile : String)
    (fs : FsExists) (ps : List Processor)
    (h : buildPreProcessors config scalerFile fs = .ok ps) :
    ps = [Processor.cutOff config.size]
        ++ (if config.scale then [Processor.normalize scalerFile config.infoParams] else [])
        ++ [Processor.buildTSDataset config.infoParams]
        ++ (if config.timeFeat then
              [Processor.calcTimeFeatures config.infoParams config.size config.holiday]
            else [])
        ++ [Processor.dataFrame2Arrays config.inputData] ∧
    ∀ (sem : StageSem) (d : TSRecord),
      preprocessorRunChain sem ⟨scalerFile, ps⟩ d =
        sem.dataFrame2Arrays config.inputData
          ((fun d3 => if config.timeFeat then
              sem.calcTimeFeatures config.infoParams config.size config.holiday d3 else d3)
            (sem.buildTSDataset config.infoParams
              ((fun d1 => if config.scale then
                  sem.normalize scalerFile config.infoParams d1 else d1)
                (sem.cutOff config.size d)))) := by
  unfold buildPreProcessors at h
  cases hsc : config.scale with
  | false =>
    rw [hsc] at h
    simp only [Bind.bind, Except.bind, if_neg Bool.false_ne_true] at h
    cases htf : config.timeFeat <;> rw [htf] at h <;> simp at h <;>
      refine ⟨h.symm, fun sem d => ?_⟩ <;>
        simp [← h, preprocessorRunChain, processorChain, applyProcessor]
  | true =>
    rw [hsc] at h
    cases hfs : fs scalerFile with
    | false => rw [hfs] at h; simp [Bind.bind, Except.bind] at h
    | true =>
      rw [hfs] at h
      simp only [Bind.bind, Except.bind, if_pos trivial, if_pos rfl] at h
      cases htf : config.timeFeat <;> rw [htf] at h <;> simp at h <;>
        refine ⟨h.symm, fun sem d => ?_⟩ <;>
          simp [← h, preprocessorRunChain, processorChain, applyProcessor]

/-- A concrete config with both optional stages enabled. -/
def c4Config : FcConfig :=
  { size := 96, scale := true, infoParams := c1InfoParams, timeFeat := true,
    holiday := false, inputData := [(r"x")] }

/-- The processor list built from `c4Config`. -/
def c4Procs : List Processor :=
  [.cutOff 96, .normalize (r"scaler.pkl") c1InfoParams, .buildTSDataset c1InfoParams,
   .calcTimeFeatures c1InfoParams 96 false, .dataFrame2Arrays [(r"x")]]

/-- Identity stage semantics (each stage returns the record unchanged). -/
def idStageSem : StageSem :=
  { cutOff := fun _ d => d, normalize := fun _ _ d => d, buildTSDataset := fun _ d => d,
    calcTimeFeatures := fun _ _ _ d => d, dataFrame2Arrays := fun _ d => d }

/-- A concrete shared record. -/
def c4Record : TSRecord := { oriTs := .raw c1Ts, ts := .frame c1Ts }

/-- Witness for C4: on a config with `scale` and `time_feat` both truthy
and an existing scaler file, the built chain is the expected five stages
and `run` composes them in order. -/
theorem claim_c4_witness :
    buildPreProcessors c4Config (r"scaler.pkl") (fun _ => true) = .ok c4Procs ∧
      preprocessorRunChain idStageSem ⟨(r"scaler.pkl"), c4Procs⟩ c4Record = c4Record := by
  have h := claim_c4_preprocessor_chain_order c4Config (r"scaler.pkl") (fun _ => true)
    c4Procs (by rfl)
  exact ⟨by rfl, by rw [h.2 idStageSem c4Record]; rfl⟩

/-- C5: with `config["scale"]` truthy, constructing either the
preprocessor or the postprocessor with a non-existing scaler file raises
`Exception("Cannot find scaler file: <file>")`; with `config["scale"]`
falsy, the scaler file existence is never consulted (the result does not
depend on the oracle) and construction succeeds. -/
theorem claim_c5_missing_scaler_file (config : FcConfig) (f : String) (fs fs2 : FsExists) :
    (config.scale = true → fs f = false →
      preprocessorInit config f fs = .error (.exception ((r"Cannot find scaler file: ") ++ f)) ∧
      postprocessorInit config f fs = .error (.exception ((r"Cannot find scaler file: ") ++ f))) ∧
    (config.scale = false →
      preprocessorInit config f fs = preprocessorInit config f fs2 ∧
      postprocessorInit config f fs = postprocessorInit config f fs2 ∧
      (∃ pre, preprocessorInit config f fs = .ok pre) ∧
      (∃ post, postprocessorInit config f fs = .ok post)) := by
  constructor
  · intro hsc hfs
    constructor
    · simp [preprocessorInit, buildPreProcessors, hsc, hfs, Bind.bind, Except.bind]
    · simp [postprocessorInit, hsc, hfs]
  · intro hsc
    refine ⟨?_, ?_, ?_, ?_⟩
    · simp [preprocessorInit, buildPreProcessors, hsc, Bind.bind, Except.bind]
    · simp [postprocessorInit, hsc]
    · cases htf : config.timeFeat with
      | false =>
        exact ⟨⟨f, [Processor.cutOff config.size, Processor.buildTSDataset config.infoParams,
            Processor.dataFrame2Arrays config.inputData]⟩,
          by simp [preprocessorInit, buildPreProcessors, hsc, htf, Bind.bind, Except.bind]⟩
      | true =>
        exact ⟨⟨f, [Processor.cutOff config.size, Processor.buildTSDataset config.infoParams,
            Processor.calcTimeFeatures config.infoParams config.size config.holiday,
            Processor.dataFrame2Arrays config.inputData]⟩,
          by simp [preprocessorInit, buildPreProcessors, hsc, htf, Bind.bind, Except.bind]⟩
    · exact ⟨⟨f, config.infoParams, false⟩, by simp [postprocessorInit, hsc]⟩

/-- A config identical to `c4Config` except that scaling is disabled. -/
def c5ConfigNoScale : FcConfig := { c4Config with scale := false }

/-- Witness for C5: concrete instances of both halves — with `scale`
truthy and a missing file both constructors raise the naming error; with
`scale` falsy construction succeeds and ignores the oracle. -/
theorem claim_c5_witness :
    (preprocessorInit c4Config (r"scaler.pkl") (fun _ => false) =
        .error (.exception ((r"Cannot find scaler file: ") ++ (r"scaler.pkl"))) ∧
      postprocessorInit c4Config (r"scaler.pkl") (fun _ => false) =
        .error (.exception ((r"Cannot find scaler file: ") ++ (r"scaler.pkl")))) ∧
    (preprocessorInit c5ConfigNoScale (r"scaler.pkl") (fun _ => false) =
        preprocessorInit c5ConfigNoScale (r"scaler.pkl") (fun _ => true) ∧
      postprocessorInit c5ConfigNoScale (r"scaler.pkl") (fun _ => false) =
        postprocessorInit c5ConfigNoScale (r"scaler.pkl") (fun _ => true) ∧
      (∃ pre, preprocessorInit c5ConfigNoScale (r"scaler.pkl") (fun _ => false) = .ok pre) ∧
      (∃ post, postprocessorInit c5ConfigNoScale (r"scaler.pkl") (fun _ => false) = .ok post)) :=
  ⟨(claim_c5_missing_scaler_file c4Config (r"scaler.pkl") (fun _ => false)
      (fun _ => true)).1 rfl rfl,
    (claim_c5_missing_scaler_file c5ConfigNoScale (r"scaler.pkl") (fun _ => false)
      (fun _ => true)).2 rfl⟩

/-! ### `PyOnlyForecastingModel.batch_predict` -/

/-- The external inference runtime (`self._runtime`): its declared inputs
(`num_inputs` / `get_input_info(idx).name`) and `infer`, whose result is
the list of output arrays; iterating the first output array yields one
per-item prediction array per batch element. -/
structure Runtime where
  numInputs : Nat
  inputName : Nat → String
  infer : List (String × NDArray) → List (List NDArray)

/-- `data["ts"][idx]`: list indexing once `DataFrame2Arrays` has run
(raising `IndexError` past the end); indexing a DataFrame with an int
raises `KeyError`. -/
def tsIndex (t : TsVal) (i : Nat) : Except Err NDArray :=
  match t with
  | .frame _ => .error (.keyError (r"integer column key"))
  | .arrays xs =>
    match xs.get? i with
    | some a => .ok a
    | none => .error (.indexError (r"list index out of range"))

/-- Model of `np.stack(arrs, axis=0)`: requires a non-empty list of
equally-shaped arrays; prepends the batch dimension. -/
def npStack (xs : List NDArray) : Except Err NDArray :=
  match xs with
  | [] => .error (.valueError (r"need at least one array to stack"))
  | a :: rest =>
    if rest.all (fun b => b.shape == a.shape) then
      .ok { shape := (a :: rest).length :: a.shape,
            data := ((a :: rest).map (fun b => b.data)).flatten }
    else .error (.valueError (r"all input arrays must have the same shape"))

/-- The forecasting model object after `__init__`: its constructed
pre/postprocessors. -/
structure ForecastingModel where
  pre : Preprocessor
  post : Postprocessor

/-- The first loop of `batch_predict` (lines 56-60): for each input
series, build the shared record with `ori_ts` a deep copy of the input
(value copy; the aliasing aspect is modelled separately on the heap
below) and `ts` the input itself, and run the preprocessor chain. -/
def mkDataList (sem : StageSem) (pre : Preprocessor) (tsList : List Series) : List TSRecord :=
  tsList.map (fun csv => preprocessorRunChain sem pre { oriTs := .raw csv, ts := .frame csv })

/-- The input-collation loop of `batch_predict` (lines 62-70): for each
runtime input, stack the per-item `data["ts"][idx]` arrays. -/
def mkInputData (rt : Runtime) (dataList : List TSRecord) :
    Except Err (List (String × NDArray)) :=
  (List.range rt.numInputs).mapM (fun idx => do
    let arrs ← dataList.mapM (fun d => tsIndex d.ts idx)
    let stacked ← npStack arrs
    pure (rt.inputName idx, stacked))

/-- `PyOnlyForecastingModel.batch_predict` (lines 55-79): preprocess every
input, collate the runtime inputs, invoke the runtime, and reconstruct
one result per entry of the first output array, pairing it with the
preserved `ori_ts` of the same batch position. -/
def batchPredict (sem : StageSem) (m : ForecastingModel) (rt : Runtime)
    (denorm : Val → Val) (tsList : List Series) :
    Except Err (List ForecastingResult) := do
  let dataList := mkDataList sem m.pre tsList
  let inputData ← mkInputData rt dataList
  let outputArrs := rt.infer inputData
  let outs ← (match outputArrs.head? with
    | some o => Except.ok o
    | none => Except.error (.indexError (r"list index out of range")))
  outs.enum.mapM (fun pair => do
    let d ← (match dataList.get? pair.1 with
      | some d => Except.ok d
      | none => Except.error (.indexError (r"list index out of range")))
    postprocessorObjRun m.post denorm { oriTs := d.oriTs, pred := pair.2 })

theorem getElem?_eq_some_getD {α : Type} [Inhabited α] (l : List α) (i : Nat)
    (h : i < l.length) : l[i]? = some (l.getD i default) := by
  induction l generalizing i with
  | nil => simp at h
  | cons a t ih =>
    cases i with
    | zero => simp
    | succ j => simpa using ih j (by simpa using h)

theorem mapM_enumFrom_ok {R : Type} [Inhabited R] (f : Nat × NDArray → Except Err R) :
    ∀ (l : List NDArray) (s : Nat) (res : List R),
      (List.enumFrom s l).mapM f = .ok res →
      res.length = l.length ∧
        ∀ i, i < l.length → f (s + i, l.getD i default) = .ok (res.getD i default) := by
  intro l
  induction l with
  | nil =>
    intro s res h
    simp only [List.enumFrom, List.mapM_nil, pure, Except.pure] at h
    cases h
    exact ⟨rfl, fun i hi => absurd hi (by simp)⟩
  | cons a t ih =>
    intro s res h
    rw [show List.enumFrom s (a :: t) = (s, a) :: List.enumFrom (s + 1) t from rfl,
      List.mapM_cons] at h
    simp only [Bind.bind] at h
    cases hx : f (s, a) with
    | error e => rw [hx] at h; cases h
    | ok x =>
      rw [hx] at h
      simp only [Except.bind] at h
      cases hxs : (List.enumFrom (s + 1) t).mapM f with
      | error e => rw [hxs] at h; cases h
      | ok xs =>
        rw [hxs] at h
        simp only [Except.bind, pure, Except.pure] at h
        cases h
        obtain ⟨hlen, hall⟩ := ih (s + 1) xs hxs
        refine ⟨by simp [hlen], ?_⟩
        intro i hi
        cases i with
        | zero => simpa using hx
        | succ j =>
          have hj := hall j (by simpa using hi)
          have harit : s + 1 + j = s + (j + 1) := by omega
          rw [harit] at hj
          simpa using hj

/-- C6: per-item result reconstruction of `batch_predict`: for a
non-empty input list, assuming the runtime's first output array has one
entry per input, a successful run returns exactly one result per input,
and the i-th result is the postprocessor applied to the i-th entry of the
first output array together with the i-th record's preserved `ori_ts`, in
input order. -/
theorem claim_c6_batch_per_item (sem : StageSem) (m : ForecastingModel) (rt : Runtime)
    (denorm : Val → Val) (tsList : List Series) (inp : List (String × NDArray))
    (outs : List NDArray) (results : List ForecastingResult)
    (_hne : tsList ≠ [])
    (hinp : mkInputData rt (mkDataList sem m.pre tsList) = .ok inp)
    (houts : (rt.infer inp).head? = some outs)
    (hlen : outs.length = tsList.length)
    (hrun : batchPredict sem m rt denorm tsList = .ok results) :
    results.length = tsList.length ∧
      ∀ i, i < tsList.length →
        postprocessorObjRun m.post denorm
          { oriTs := ((mkDataList sem m.pre tsList).getD i default).oriTs,
            pred := outs.getD i default } = .ok (results.getD i default) := by
  have hdlen : (mkDataList sem m.pre tsList).length = tsList.length := by
    simp [mkDataList]
  simp only [batchPredict, Bind.bind] at hrun
  rw [hinp] at hrun
  simp only [Bind.bind, Except.bind] at hrun
  rw [houts] at hrun
  simp only [Except.bind] at hrun
  obtain ⟨hrlen, hall⟩ :=
    mapM_enumFrom_ok _ outs 0 results (by simpa [List.enum] using hrun)
  refine ⟨by omega, ?_⟩
  intro i hi
  have hf := hall i (by omega)
  have h0 : (0 : Nat) + i = i := Nat.zero_add i
  simp only [h0] at hf
  rw [getElem?_eq_some_getD (mkDataList sem m.pre tsList) i (by omega)] at hf
  simpa [Bind.bind, Except.bind] using hf

/-- A concrete raw input frame whose only column is `past_target`. -/
def c6Csv : Series :=
  { cols := [(r"past_target")], index := .datetime [0, 86400] (some 86400),
    values := [[1], [2]] }

/-- A concrete constructed forecasting model (no scaling). -/
def c6Model : ForecastingModel :=
  { pre := ⟨(r"scaler.pkl"),
      [.cutOff 96, .buildTSDataset c1InfoParams, .dataFrame2Arrays []]⟩,
    post := ⟨(r"scaler.pkl"), c1InfoParams, false⟩ }

/-- The per-item prediction array the concrete runtime returns. -/
def c6Pred : NDArray := { shape := [2], data := [5, 6] }

/-- A concrete runtime with no declared inputs and a one-element batch in
its first output array. -/
def c6Rt : Runtime :=
  { numInputs := 0, inputName := fun _ => (r"x"), infer := fun _ => [[c6Pred]] }

/-- The result reconstructed for the single batch item. -/
def c6Result : ForecastingResult :=
  { dates := [172800, 259200], colNames := [(r"t")], data := [[5, 6]] }

/-- Witness for C6: a concrete one-element batch where the runtime's first
output array has one entry per input; the single result is the
postprocessor applied to that entry and the preserved `ori_ts`. -/
theorem claim_c6_witness :
    postprocessorObjRun c6Model.post id
      { oriTs := ((mkDataList idStageSem c6Model.pre [c6Csv]).getD 0 default).oriTs,
        pred := ([c6Pred].getD 0 default) } = .ok ([c6Result].getD 0 default) := by
  have h := claim_c6_batch_per_item idStageSem c6Model c6Rt id [c6Csv] [] [c6Pred]
    [c6Result] (by simp) (by rfl) (by rfl) (by rfl) (by rfl)
  exact h.2 0 (by simp)

/-! ### C8: the deep copy of `ori_ts`, on an explicit heap

The aliasing behaviour of lines 55-60 and 74-78 of `batch_predict` is
about object identity, so it is modelled on an explicit heap: a list of
series objects indexed by allocation order. -/

/-- The shared record of `batch_predict` at the heap level: the
allocation indices bound to `"ori_ts"` and `"ts"`. -/
structure HRecord where
  oriTs : Nat
  ts : Nat
deriving DecidableEq

/-- `deepcopy`: allocate a fresh object holding a copy of the value. -/
def allocSeries (h : List Series) (v : Series) : List Series × Nat :=
  (h ++ [v], h.length)

/-- Modelled from the spec: a preprocessing stage consumes and produces
the shared record; its effect on the series object is an in-place update
through the record's `ts` binding, with an arbitrary transform `f`
(stages of `ultra_infer.py_only.ts.processors` are not part of this
fragment). -/
def applyStageInPlace (f : Series → Series) (h : List Series) (d : HRecord) :
    List Series :=
  h.set d.ts (f (h.getD d.ts default))

/-- The preprocessor chain on the heap: stages applied in order. -/
def chainInPlace (fs : List (Series → Series)) (h : List Series) (d : HRecord) :
    List Series :=
  fs.foldl (fun acc f => applyStageInPlace f acc d) h

/-- Lines 55-60 of `batch_predict` on the heap:
`data = {"ori_ts": deepcopy(csv_data), "ts": csv_data}` followed by the
preprocessor chain.  `deepcopy` allocates a fresh object with a copy of
the caller's series, while `"ts"` aliases the caller's object.  The
`ori_ts` binding of the produced record is what line 76 hands to the
postprocessor. -/
def prologueHeap (fs : List (Series → Series)) (h : List Series) (caller : Nat) :
    List Series × HRecord :=
  let copied := allocSeries h (h.getD caller default)
  let d : HRecord := { oriTs := copied.2, ts := caller }
  (chainInPlace fs copied.1 d, d)

theorem getD_set_ne (l : List Series) (i j : Nat) (v : Series) (hij : i ≠ j) :
    (l.set i v).getD j default = l.getD j default := by
  simp [List.getD, List.getElem?_set_ne hij]

theorem chainInPlace_length (fs : List (Series → Series)) (h : List Series) (d : HRecord) :
    (chainInPlace fs h d).length = h.length := by
  induction fs generalizing h with
  | nil => rfl
  | cons f t ih =>
    show (chainInPlace t (applyStageInPlace f h d) d).length = h.length
    rw [ih]
    simp [applyStageInPlace]

theorem chainInPlace_get_other (fs : List (Series → Series)) (h : List Series)
    (d : HRecord) (x : Nat) (hx : x ≠ d.ts) :
    (chainInPlace fs h d).getD x default = h.getD x default := by
  induction fs generalizing h with
  | nil => rfl
  | cons f t ih =>
    show (chainInPlace t (applyStageInPlace f h d) d).getD x default = h.getD x default
    rw [ih]
    exact getD_set_ne _ _ _ _ (fun hc => hx hc.symm)

theorem chainInPlace_get_ts (fs : List (Series → Series)) (h : List Series)
    (d : HRecord) (hts : d.ts < h.length) :
    (chainInPlace fs h d).getD d.ts default =
      fs.foldl (fun s f => f s) (h.getD d.ts default) := by
  induction fs generalizing h hts with
  | nil => rfl
  | cons f t ih =>
    show (chainInPlace t (applyStageInPlace f h d) d).getD d.ts default = _
    rw [ih (applyStageInPlace f h d) (by simpa [applyStageInPlace] using hts)]
    have hset : (applyStageInPlace f h d).getD d.ts default = f (h.getD d.ts default) := by
      simp [applyStageInPlace, List.getD, List.getElem?_set_eq_of_lt _ hts]
    rw [hset]
    rfl

/-- C8: `batch_predict` stores a deep copy of the input under `ori_ts`
(a fresh object distinct from the caller's), so after every sequence of
in-place preprocessing stages the series handed to the postprocessor as
`ori_ts` still holds the caller's original value — even though the `ts`
binding aliases the caller's object, whose value becomes the composite of
the stage transforms. -/
theorem claim_c8_deepcopy_preserves_ori_ts (fs : List (Series → Series))
    (h : List Series) (caller : Nat) (hc : caller < h.length) :
    (prologueHeap fs h caller).2.ts = caller ∧
    (prologueHeap fs h caller).2.oriTs ≠ caller ∧
    (prologueHeap fs h caller).1.getD (prologueHeap fs h caller).2.oriTs default
      = h.getD caller default ∧
    (prologueHeap fs h caller).1.getD caller default
      = fs.foldl (fun s f => f s) (h.getD caller default) := by
  refine ⟨rfl, by simp only [prologueHeap, allocSeries]; omega, ?_, ?_⟩
  · simp only [prologueHeap, allocSeries]
    rw [chainInPlace_get_other _ _ _ _ (by simp only []; omega)]
    simp [List.getD, List.getElem?_append]
  · simp only [prologueHeap, allocSeries]
    rw [chainInPlace_get_ts fs (h ++ [h.getD caller default])
      ⟨h.length, caller⟩ (by simp only [List.length_append]; omega)]
    congr 1
    simp [List.getD, List.getElem?_append, hc]

/-- Two distinct concrete series for the C8 witness. -/
def c8SeriesA : Series :=
  { cols := [(r"a")], index := .range [0], values := [[1]] }

/-- The value a concrete stage writes through the `ts` alias. -/
def c8SeriesB : Series :=
  { cols := [(r"b")], index := .range [1], values := [[2]] }

/-- Witness for C8: a one-object heap and a single stage that overwrites
the series through the `ts` alias; the `ori_ts` cell still holds the
original value. -/
theorem claim_c8_witness :
    (prologueHeap [fun _ => c8SeriesB] [c8SeriesA] 0).2.ts = 0 ∧
    (prologueHeap [fun _ => c8SeriesB] [c8SeriesA] 0).2.oriTs ≠ 0 ∧
    (prologueHeap [fun _ => c8SeriesB] [c8SeriesA] 0).1.getD
        (prologueHeap [fun _ => c8SeriesB] [c8SeriesA] 0).2.oriTs default
      = [c8SeriesA].getD 0 default ∧
    (prologueHeap [fun _ => c8SeriesB] [c8SeriesA] 0).1.getD 0 default
      = [fun _ => c8SeriesB].foldl (fun s f => f s) ([c8SeriesA].getD 0 default) :=
  claim_c8_deepcopy_preserves_ori_ts [fun _ => c8SeriesB] [c8SeriesA] 0 (by simp)

/-! ### Detection metric accumulators (`det_metrics/metrics.py`) -/

/-- The scalar stats list returned by `cocoapi_eval`. -/
abbrev EvalStats := List Val

/-- One converted detection record (an opaque JSON-like payload). -/
abbrev CocoDet := String

/-- The dict returned by `get_infer_results`; `none` models an absent
key. -/
structure InferResults where
  bbox : Option (List CocoDet)
  mask : Option (List CocoDet)
deriving DecidableEq

/-- The `COCOMetric` object.  For `outputEval` and `annoFile`, `none`
models the attribute never having been assigned (`__init__` does not set
them), while `some v` models an assigned attribute whose Python value is
`v` (`Option String`: `none` = `None`, falsy). -/
structure COCOMetric where
  clsid2catid : List (Nat × Nat)
  classwise : Bool
  bias : Nat
  resultsBbox : List CocoDet
  resultsMask : List CocoDet
  evalBbox : Option EvalStats
  evalMask : Option EvalStats
  outputEval : Option (Option String)
  annoFile : Option (Option String)
deriving DecidableEq

/-- `COCOMetric.__init__` (lines 137-144): stores the
category-id mapping (`{i: cat["id"]}` over the ground-truth categories),
`classwise`, `bias = 0`, and calls `reset`; it assigns neither
`output_eval` nor `anno_file`. -/
def cocoMetricInit (catIds : List Nat) (classwise : Bool) : COCOMetric :=
  { clsid2catid := catIds.enum, classwise := classwise, bias := 0,
    resultsBbox := [], resultsMask := [], evalBbox := none, evalMask := none,
    outputEval := none, annoFile := none }

/-- `COCOMetric.reset` (lines 146-149): `self.results = {"bbox": [],
"mask": []}` and `self.eval_results = {}`. -/
def COCOMetric.reset (m : COCOMetric) : COCOMetric :=
  { m with resultsBbox := [], resultsMask := [], evalBbox := none, evalMask := none }

/-- `COCOMetric.update` (lines 151-166): convert the outputs (the
tensor-to-numpy plumbing and `get_infer_results` from
`det_metrics.coco_utils` are a collaborator, quantified over as `gir`
applied to the opaque batch payload) and append the per-key lists to
`self.results` (an absent key contributes `[]`). -/
def COCOMetric.update (m : COCOMetric) (gir : String → InferResults) (u : String) :
    COCOMetric :=
  let infer := gir u
  { m with resultsBbox := m.resultsBbox ++ infer.bbox.getD [],
           resultsMask := m.resultsMask ++ infer.mask.getD [] }

/-- `COCOMetric.accumulate` (lines 168-199): when the bbox result list is
non-empty, read `self.output_eval` (raising `AttributeError` when the
attribute was never assigned) to pick the dump path, call `cocoapi_eval`
(a collaborator, quantified over) with `self.anno_file` (again raising
`AttributeError` when unset) and store the stats in
`self.eval_results["bbox"]`; then the same for masks with style
`"segm"`. File dumping and logging have no effect on the metric state. -/
def COCOMetric.accumulate
    (m : COCOMetric) (cocoEval : String → String → Option String → Bool → EvalStats) :
    Except Err COCOMetric := do
  let m1 ← (if m.resultsBbox.length > 0 then do
      let oe ← (match m.outputEval with
        | some v => Except.ok v
        | none => Except.error (.attributeError (r"output_eval")))
      let output := (match oe with
        | some dir => dir ++ (r"/bbox.json")
        | none => (r"bbox.json"))
      let af ← (match m.annoFile with
        | some v => Except.ok v
        | none => Except.error (.attributeError (r"anno_file")))
      Except.ok { m with evalBbox := some (cocoEval output (r"bbox") af m.classwise) }
    else Except.ok m)
  (if m1.resultsMask.length > 0 then do
      let oe ← (match m1.outputEval with
        | some v => Except.ok v
        | none => Except.error (.attributeError (r"output_eval")))
      let output := (match oe with
        | some dir => dir ++ (r"/mask.json")
        | none => (r"mask.json"))
      let af ← (match m1.annoFile with
        | some v => Except.ok v
        | none => Except.error (.attributeError (r"anno_file")))
      Except.ok { m1 with evalMask := some (cocoEval output (r"segm") af m1.classwise) }
    else Except.ok m1)

/-- `COCOMetric.get` (lines 204-205): return `self.eval_results`. -/
def COCOMetric.get (m : COCOMetric) : Option EvalStats × Option EvalStats :=
  (m.evalBbox, m.evalMask)

/-- Modelled from the spec: the `DetectionMAP` accumulator
(`det_metrics.map_utils`, not part of this fragment) holds running
per-class detection score/hit records and ground-truth counts plus the
computed mAP; `reset` clears them to their freshly-constructed values. -/
structure DetectionMAPState where
  classNum : Nat
  classScorePoss : List (List (Val × Bool))
  classGtCounts : List Nat
  map : Option Val
deriving DecidableEq

/-- Modelled from the spec: `DetectionMAP.reset` restores the empty
accumulation state. -/
def DetectionMAPState.resetOf (s : DetectionMAPState) : DetectionMAPState :=
  { s with classScorePoss := List.replicate s.classNum [],
           classGtCounts := List.replicate s.classNum 0, map := none }

/-- The `VOCMetric` object (lines 54-76). -/
structure VOCMetric where
  cid2cname : List (Nat × String)
  overlapThresh : Val
  mapType : String
  evaluateDifficult : Bool
  detectionMap : DetectionMAPState
deriving DecidableEq

/-- `VOCMetric.reset` (lines 78-79): `self.detection_map.reset()`. -/
def VOCMetric.reset (vm : VOCMetric) : VOCMetric :=
  { vm with detectionMap := vm.detectionMap.resetOf }

/-- A 2-D numpy array with explicit shape. -/
structure NpMat where
  nrows : Nat
  ncols : Nat
  entries : List (List Val)
deriving DecidableEq

/-- `m[:, j:]`: drop the first `j` columns (numpy clamps at zero
width). -/
def NpMat.sliceColsFrom (m : NpMat) (j : Nat) : NpMat :=
  { nrows := m.nrows, ncols := m.ncols - j, entries := m.entries.map (List.drop j) }

/-- The values of column `j`. -/
def NpMat.colVals (m : NpMat) (j : Nat) : List Val :=
  m.entries.map (fun row => row.getD j 0)

/-- `m[:, j]`: raises `IndexError` when `j` is out of bounds for axis
1. -/
def NpMat.col (m : NpMat) (j : Nat) : Except Err (List Val) :=
  if j < m.ncols then .ok (m.colVals j)
  else .error (.indexError (r"index out of bounds for axis 1"))

/-- The evaluation inputs of `VOCMetric.update`: per-image ground-truth
boxes, classes, difficult flags, and the optional `(h, w)` scale
factors. -/
structure VocInputs where
  gtBbox : List (List (List Val))
  gtClass : List (List Val)
  difficult : List (List Val)
  scaleFactor : Option (List (Val × Val))
deriving DecidableEq

/-- The prediction outputs of `VOCMetric.update`. -/
structure VocOutputs where
  bbox : NpMat
  bboxNum : List Nat
deriving DecidableEq

/-- `bboxes is None` (second disjunct of the guard on line 87): `bboxes`
is the value of `.numpy()` and is never `None`. -/
def bboxesIsNone (_ : NpMat) : Bool := false

/-- The early-return guard of `VOCMetric.update` (line 87):
`bboxes.shape == (1, 1) or bboxes is None`. -/
def vocGuard (bboxes : NpMat) : Bool :=
  ((bboxes.nrows, bboxes.ncols) == (1, 1)) || bboxesIsNone bboxes

/-- The argument record handed to `DetectionMAP.update` for one image. -/
structure DMArgs where
  bbox : List (List Val)
  score : List Val
  label : List Val
  gtBox : List (List Val)
  gtLabel : List Val
  difficult : Option (List Val)
deriving DecidableEq

/-- The per-image loop of `VOCMetric.update` (lines 98-113): slice the
flattened predictions by `bbox_num`, rescale the ground-truth boxes by
`[w, h, w, h]`, prune zero padding (`prune`, from `det_metrics.map_utils`,
a collaborator quantified over) and feed `DetectionMAP.update`
(`dmUpdate`, likewise quantified over), advancing `bbox_idx`. -/
def vocUpdateLoop (dmUpdate : DetectionMAPState → DMArgs → DetectionMAPState)
    (prune : List (List Val) → List Val → Option (List Val) →
      (List (List Val) × List Val × Option (List Val)))
    (vm : VOCMetric) (bboxes : NpMat) (scores labels : List Val)
    (bboxLengths : List Nat) (gtBoxes : List (List (List Val)))
    (gtLabels : List (List Val)) (difficults : Option (List (List Val)))
    (scaleFactor : List (Val × Val)) : VOCMetric :=
  let final := (List.range gtBoxes.length).foldl (fun acc i =>
    let hw := scaleFactor.getD i (1, 1)
    let gtBox := (gtBoxes.getD i []).map
      (fun box => box.zipWith (fun x d => x / d) [hw.2, hw.1, hw.2, hw.1])
    let gtLabel := gtLabels.getD i []
    let difficult := (match difficults with
      | none => none
      | some ds => some (ds.getD i []))
    let bboxNum := bboxLengths.getD i 0
    let pruned := prune gtBox gtLabel difficult
    let args : DMArgs :=
      { bbox := (bboxes.entries.drop acc.2).take bboxNum,
        score := (scores.drop acc.2).take bboxNum,
        label := (labels.drop acc.2).take bboxNum,
        gtBox := pruned.1, gtLabel := pruned.2.1, difficult := pruned.2.2 }
    (dmUpdate acc.1 args, acc.2 + bboxNum)) (vm.detectionMap, 0)
  { vm with detectionMap := final.1 }

/-- The non-early-return continuation of `VOCMetric.update`
(lines 89-113). -/
def vocUpdateBody (dmUpdate : DetectionMAPState → DMArgs → DetectionMAPState)
    (prune : List (List Val) → List Val → Option (List Val) →
      (List (List Val) × List Val × Option (List Val)))
    (vm : VOCMetric) (inputs : VocInputs) (outputs : VocOutputs) : VOCMetric :=
  let bboxes := outputs.bbox.sliceColsFrom 2
  let difficults := if ¬ vm.evaluateDifficult then some inputs.difficult else none
  let scaleFactor := (match inputs.scaleFactor with
    | some sf => sf
    | none => List.replicate inputs.gtBbox.length (1, 1))
  vocUpdateLoop dmUpdate prune vm bboxes (outputs.bbox.colVals 1)
    (outputs.bbox.colVals 0) outputs.bboxNum inputs.gtBbox inputs.gtClass
    difficults scaleFactor

/-- `VOCMetric.update` (lines 81-113): compute `bboxes`, `scores`,
`labels` and `bbox_lengths` (column access raising `IndexError` on
too-narrow arrays), return early when the guard fires, and otherwise run
the per-image loop. -/
def VOCMetric.update (vm : VOCMetric)
    (dmUpdate : DetectionMAPState → DMArgs → DetectionMAPState)
    (prune : List (List Val) → List Val → Option (List Val) →
      (List (List Val) × List Val × Option (List Val)))
    (inputs : VocInputs) (outputs : VocOutputs) : Except Err VOCMetric := do
  let bboxes := outputs.bbox.sliceColsFrom 2
  let _scores ← outputs.bbox.col 1
  let _labels ← outputs.bbox.col 0
  if vocGuard bboxes then Except.ok vm
  else Except.ok (vocUpdateBody dmUpdate prune vm inputs outputs)

/-- A concrete `get_infer_results` collaborator returning one bbox
record. -/
def c2Gir : String → InferResults := fun _ => { bbox := some [(r"det0")], mask := none }

/-- C2: the lifecycle reset → update* → accumulate → get on `COCOMetric`:
after construction (which calls `reset`) and one update appending one
bbox entry, `accumulate` does not compute and store bbox stats — it
raises `AttributeError` because `__init__` never assigns
`self.output_eval` (nor `self.anno_file`), so `get()` can never return a
populated `eval_results`.  This evaluates the embedded code at the
failing input. -/
theorem claim_c2_accumulate_raises_attribute_error :
    ((cocoMetricInit [1] false).update c2Gir (r"batch0")).resultsBbox.length = 1 ∧
    ((cocoMetricInit [1] false).update c2Gir (r"batch0")).accumulate
        (fun _ _ _ _ => []) = .error (.attributeError (r"output_eval")) := by
  exact ⟨rfl, rfl⟩

/-- A sequence of `update` calls (each with its collaborator and batch
payload), folded left over the metric state. -/
def applyCocoUpdates (m : COCOMetric) (us : List ((String → InferResults) × String)) :
    COCOMetric :=
  us.foldl (fun acc gu => acc.update gu.1 gu.2) m

/-- C3: `COCOMetric.reset` restores the freshly-constructed accumulation
state — after any sequence of updates the reset state equals the reset of
the original state (so earlier updates cannot affect a later
`accumulate`), with `results = {"bbox": [], "mask": []}` and
`eval_results = {}`; and `VOCMetric.reset` resets the underlying
`detection_map` state. -/
theorem claim_c3_reset_restores_fresh_state (m : COCOMetric)
    (us : List ((String → InferResults) × String)) (vm : VOCMetric) :
    (applyCocoUpdates m us).reset = m.reset ∧
    (m.reset).resultsBbox = [] ∧ (m.reset).resultsMask = [] ∧
    (m.reset).evalBbox = none ∧ (m.reset).evalMask = none ∧
    vm.reset = { vm with detectionMap := vm.detectionMap.resetOf } := by
  refine ⟨?_, rfl, rfl, rfl, rfl, rfl⟩
  induction us generalizing m with
  | nil => rfl
  | cons gu t ih =>
    show (applyCocoUpdates (m.update gu.1 gu.2) t).reset = m.reset
    rw [ih (m.update gu.1 gu.2)]
    rfl

/-- C9: the early-return guard of `VOCMetric.update` fires exactly when
`outputs["bbox"][:, 2:]` has shape `(1, 1)` (the `bboxes is None`
disjunct is never the reason, `bboxes` being a `.numpy()` result, so the
guard equals the shape test); when it fires the accumulator state is
returned unchanged, and for every other shape (wide enough for the column
reads preceding the guard) the update proceeds to the per-image loop. -/
theorem claim_c9_voc_update_guard
    (dmUpdate : DetectionMAPState → DMArgs → DetectionMAPState)
    (prune : List (List Val) → List Val → Option (List Val) →
      (List (List Val) × List Val × Option (List Val)))
    (vm : VOCMetric) (inputs : VocInputs) (outputs : VocOutputs) :
    vocGuard (outputs.bbox.sliceColsFrom 2) =
        decide ((outputs.bbox.sliceColsFrom 2).nrows = 1 ∧
          (outputs.bbox.sliceColsFrom 2).ncols = 1) ∧
    ((outputs.bbox.sliceColsFrom 2).nrows = 1 →
      (outputs.bbox.sliceColsFrom 2).ncols = 1 →
      vm.update dmUpdate prune inputs outputs = .ok vm) ∧
    (2 ≤ outputs.bbox.ncols → vocGuard (outputs.bbox.sliceColsFrom 2) = false →
      vm.update dmUpdate prune inputs outputs =
        .ok (vocUpdateBody dmUpdate prune vm inputs outputs)) := by
  refine ⟨?_, ?_, ?_⟩
  · by_cases h1 : (outputs.bbox.sliceColsFrom 2).nrows = 1 <;>
      by_cases h2 : (outputs.bbox.sliceColsFrom 2).ncols = 1 <;>
        simp [vocGuard, bboxesIsNone, h1, h2]
  · intro h1 h2
    have hc : outputs.bbox.ncols = 3 := by
      simp only [NpMat.sliceColsFrom] at h2; omega
    have hg : vocGuard (outputs.bbox.sliceColsFrom 2) = true := by
      simp [vocGuard, h1, h2]
    unfold VOCMetric.update
    simp [NpMat.col, hc, hg, Bind.bind, Except.bind]
  · intro hcols hg
    have h1 : 1 < outputs.bbox.ncols := by omega
    have h0 : 0 < outputs.bbox.ncols := by omega
    unfold VOCMetric.update
    simp [NpMat.col, h1, h0, hg, Bind.bind, Except.bind]

/-- A concrete `outputs` whose sliced shape is `(1, 1)`. -/
def c9Outputs : VocOutputs :=
  { bbox := { nrows := 1, ncols := 3, entries := [[0, 1, 2]] }, bboxNum := [1] }

/-- A concrete `outputs` whose sliced shape is not `(1, 1)`. -/
def c9OutputsWide : VocOutputs :=
  { bbox := { nrows := 1, ncols := 6, entries := [[0, 1, 2, 3, 4, 5]] }, bboxNum := [1] }

/-- Concrete evaluation inputs for the C9 witness. -/
def c9Inputs : VocInputs :=
  { gtBbox := [[[0, 0, 1, 1]]], gtClass := [[0]], difficult := [[0]], scaleFactor := none }

/-- A concrete `VOCMetric` state for the C9 witness. -/
def c9Voc : VOCMetric :=
  { cid2cname := [(0, (r"cat"))], overlapThresh := 1 / 2, mapType := (r"11point"),
    evaluateDifficult := false,
    detectionMap := { classNum := 1, classScorePoss := [[]], classGtCounts := [0],
                      map := none } }

/-- Witness for C9: at shape `(1, 1)` the update returns the state
unchanged, and at a wider shape the guard is false and the update runs
the loop body. -/
theorem claim_c9_witness :
    c9Voc.update (fun s _ => s) (fun a b c => (a, b, c)) c9Inputs c9Outputs = .ok c9Voc ∧
    c9Voc.update (fun s _ => s) (fun a b c => (a, b, c)) c9Inputs c9OutputsWide =
      .ok (vocUpdateBody (fun s _ => s) (fun a b c => (a, b, c)) c9Voc c9Inputs
        c9OutputsWide) := by
  have h := claim_c9_voc_update_guard (fun s _ => s) (fun a b c => (a, b, c)) c9Voc
    c9Inputs c9Outputs
  have h2 := claim_c9_voc_update_guard (fun s _ => s) (fun a b c => (a, b, c)) c9Voc
    c9Inputs c9OutputsWide
  exact ⟨h.2.1 rfl rfl, h2.2.2 (by decide) (by decide)⟩

/-! ### Static registration (`formula_rec/register.py`) -/

/-- A registered suite entry: the suite name, the model / runner / config
classes it binds (by class name), and the runner root path read from the
`PADDLE_PDX_PADDLEOCR_PATH` environment variable. -/
structure SuiteInfo where
  suiteName : String
  model : String
  runner : String
  config : String
  runnerRootPath : Option String
deriving DecidableEq

/-- A registered model entry. -/
structure ModelRegInfo where
  modelName : String
  suite : String
  configPath : String
  supportedApis : List String
deriving DecidableEq

/-- The lookup table the registration calls populate. -/
structure Registry where
  suites : List SuiteInfo
  models : List ModelRegInfo
deriving DecidableEq

/-- The empty lookup table. -/
def Registry.empty : Registry := ⟨[], []⟩

/-- Modelled from the spec: `register_suite_info`
(`paddlex.repo_apis.base.register`, not part of this fragment) inserts
the suite record into the lookup table. -/
def registerSuiteInfo (rg : Registry) (s : SuiteInfo) : Registry :=
  { rg with suites := rg.suites ++ [s] }

/-- Modelled from the spec: `register_model_info`
(`paddlex.repo_apis.base.register`, not part of this fragment) inserts
the model record into the lookup table. -/
def registerModelInfo (rg : Registry) (m : ModelRegInfo) : Registry :=
  { rg with models := rg.models ++ [m] }

/-- The list of supported APIs each registered formula model declares. -/
def formulaRecApis : List String :=
  [(r"train"), (r"evaluate"), (r"predict"), (r"export"), (r"infer")]

/-- Importing `formula_rec/register.py` (lines 24-73): one
`register_suite_info` call for suite `FormulaRec` followed by four
`register_model_info` calls, with config paths joined under the PDX
config directory. -/
def formulaRecRegister (repoRootPath : Option String) (pdxConfigDir : String)
    (rg : Registry) : Registry :=
  let rg1 := registerSuiteInfo rg
    { suiteName := (r"FormulaRec"), model := (r"FormulaRecModel"),
      runner := (r"FormulaRecRunner"), config := (r"FormulaRecConfig"),
      runnerRootPath := repoRootPath }
  let rg2 := registerModelInfo rg1
    { modelName := (r"LaTeX_OCR_rec"), suite := (r"FormulaRec"),
      configPath := pdxConfigDir ++ (r"/LaTeX_OCR_rec.yml"),
      supportedApis := formulaRecApis }
  let rg3 := registerModelInfo rg2
    { modelName := (r"UniMERNet"), suite := (r"FormulaRec"),
      configPath := pdxConfigDir ++ (r"/UniMERNet.yaml"),
      supportedApis := formulaRecApis }
  let rg4 := registerModelInfo rg3
    { modelName := (r"PP-FormulaNet-S"), suite := (r"FormulaRec"),
      configPath := pdxConfigDir ++ (r"/PP-FormulaNet-S.yaml"),
      supportedApis := formulaRecApis }
  registerModelInfo rg4
    { modelName := (r"PP-FormulaNet-L"), suite := (r"FormulaRec"),
      configPath := pdxConfigDir ++ (r"/PP-FormulaNet-L.yaml"),
      supportedApis := formulaRecApis }

/-- C7: importing the formula-recognition register module registers
exactly one suite, named `FormulaRec`, and exactly the four model infos
`LaTeX_OCR_rec`, `UniMERNet`, `PP-FormulaNet-S`, `PP-FormulaNet-L`, each
with suite `FormulaRec` and supported APIs
`["train", "evaluate", "predict", "export", "infer"]` — for every
environment value of the repo root and every config directory. -/
theorem claim_c7_formula_rec_registration (repoRoot : Option String) (dir : String) :
    ((formulaRecRegister repoRoot dir Registry.empty).suites.map SuiteInfo.suiteName) =
        [(r"FormulaRec")] ∧
    ((formulaRecRegister repoRoot dir Registry.empty).models.map ModelRegInfo.modelName) =
        [(r"LaTeX_OCR_rec"), (r"UniMERNet"), (r"PP-FormulaNet-S"), (r"PP-FormulaNet-L")] ∧
    ((formulaRecRegister repoRoot dir Registry.empty).models.all
      (fun m => m.suite == (r"FormulaRec") && m.supportedApis ==
        [(r"train"), (r"evaluate"), (r"predict"), (r"export"), (r"infer")])) = true :=
  ⟨rfl, rfl, rfl⟩

end PX
